import Mathlib

/-!
Shallow embedding of the multi-service MCP server (a Flask gateway plus five
tool modules) and proofs about its dispatch, manifest and memory-store
behavior.  JSON data is modeled by the `Value` type; Python exceptions that
the gateway catches are modeled as data (`Exn`); the external world touched
by handlers (HTTP backends, subprocesses, the SQL store, the clock, uuid
generation) is supplied explicitly as oracle arguments, so every function is
executable.
-/

/-- JSON-like values exchanged by the server.  Numbers are modeled as
integers: every numeric value the verified claims exercise is integral. -/
inductive Value where
  | null : Value
  | bool : Bool → Value
  | num : Int → Value
  | str : String → Value
  | arr : List Value → Value
  | obj : List (String × Value) → Value

mutual

/-- Structural equality test on values (Python `==` on JSON data). -/
def Value.beq : Value → Value → Bool
  | .null, .null => true
  | .bool x, .bool y => x == y
  | .num x, .num y => x == y
  | .str x, .str y => x == y
  | .arr xs, .arr ys => Value.beqList xs ys
  | .obj fs, .obj gs => Value.beqFields fs gs
  | _, _ => false

/-- Elementwise equality test on value lists. -/
def Value.beqList : List Value → List Value → Bool
  | [], [] => true
  | x :: xs, y :: ys => Value.beq x y && Value.beqList xs ys
  | _, _ => false

/-- Elementwise equality test on object fields. -/
def Value.beqFields : List (String × Value) → List (String × Value) → Bool
  | [], [] => true
  | (k, v) :: fs, (l, w) :: gs => k == l && Value.beq v w && Value.beqFields fs gs
  | _, _ => false

end

instance : BEq Value := ⟨Value.beq⟩

/-- Python truthiness (`if not x`) for the embedded values: `None`, `False`,
`0`, `""`, `[]` and `{}` are falsy, everything else truthy. -/
def truthy : Value → Bool
  | .null => false
  | .bool b => b
  | .num n => !(n == 0)
  | .str s => !(s == "")
  | .arr xs => !xs.isEmpty
  | .obj fs => !fs.isEmpty

/-- Dictionary lookup, `d.get(k)`: `none` when the key is absent (or the
value is not a JSON object). -/
def vget (v : Value) (k : String) : Option Value :=
  match v with
  | .obj fs => (fs.find? (fun e => e.1 == k)).map (·.2)
  | _ => none

/-- Dictionary lookup with default, `d.get(k, dflt)`. -/
def vgetD (v : Value) (k : String) (dflt : Value) : Value :=
  (vget v k).getD dflt

mutual

/-- Python `repr` of a value, used when values are interpolated into
f-strings inside containers. -/
def pyRepr : Value → String
  | .null => "None"
  | .bool true => "True"
  | .bool false => "False"
  | .num n => toString n
  | .str s => "\x27" ++ s ++ "\x27"
  | .arr xs => "[" ++ pyReprList xs ++ "]"
  | .obj fs => "\x7b" ++ pyReprFields fs ++ "\x7d"

/-- Comma-separated reprs of a list of values. -/
def pyReprList : List Value → String
  | [] => ""
  | [v] => pyRepr v
  | v :: rest => pyRepr v ++ ", " ++ pyReprList rest

/-- Comma-separated reprs of the fields of an object. -/
def pyReprFields : List (String × Value) → String
  | [] => ""
  | [(k, v)] => "\x27" ++ k ++ "\x27: " ++ pyRepr v
  | (k, v) :: rest => "\x27" ++ k ++ "\x27: " ++ pyRepr v ++ ", " ++ pyReprFields rest

end

/-- Python `str` of a value, as used by f-string interpolation: strings
render without quotes, containers via `repr`. -/
def pyStr : Value → String
  | .str s => s
  | v => pyRepr v

/-- A raised Python exception as the gateway observes it: `type(e).__name__`
and `str(e)`. -/
structure Exn where
  type : String
  message : String
deriving DecidableEq

/-- Outcome of a handler call: a returned value, or a raised exception that
the gateway's `except Exception` block will catch. -/
inductive HResult where
  | ok : Value → HResult
  | exn : Exn → HResult

/-- Field lookup on a successful handler result (used to state properties of
returned dictionaries). -/
def resField (r : HResult) (k : String) : Option Value :=
  match r with
  | .ok v => vget v k
  | .exn _ => none

/-- Replace the first element satisfying `p` (SQLAlchemy mutating the single
row fetched by `.first()`). -/
def updateFirst (p : α → Bool) (f : α → α) : List α → List α
  | [] => []
  | x :: xs => if p x then f x :: xs else x :: updateFirst p f xs

/-- Remove the first element satisfying `p` (`session.delete` on the row
fetched by `.first()`). -/
def removeFirst (p : α → Bool) : List α → List α
  | [] => []
  | x :: xs => if p x then xs else x :: removeFirst p xs

namespace MemoryTool

/-- A row of the `memory_items` table (tools/memory_tool.py, class
`MemoryItem`).  Timestamps are abstract clock readings (`utcnow` values,
order-isomorphically encoded as naturals); the key is kept as the value the
caller supplied. -/
structure MemoryItem where
  id : Nat
  key : Value
  value : Value
  metadata : Value
  created_at : Nat
  updated_at : Nat

/-- `MemoryItem.to_dict`: the JSON view of a row returned by every memory
handler. -/
def MemoryItem.to_dict (it : MemoryItem) : Value :=
  .obj [("id", .num it.id), ("key", it.key), ("value", it.value),
        ("metadata", it.metadata),
        ("created_at", .num it.created_at), ("updated_at", .num it.updated_at)]

/-- The persistent store: the rows of `memory_items` in insertion order
(SQLite returns unordered queries in rowid order). -/
abbrev Store := List MemoryItem

/-- The ambient effects a memory handler consumes: the current table
contents, the current clock (`datetime.datetime.utcnow()`), and the next
random identifier `str(uuid.uuid4())`. -/
structure MemCtx where
  store : Store
  now : Nat
  fresh : String

/-- Row predicate for `filter_by(key=key)`. -/
def keyIs (kv : Value) (it : MemoryItem) : Bool := Value.beq it.key kv

/-- The autoincrement primary key SQLite assigns on insert (max rowid plus
one). -/
def nextId (s : Store) : Nat := (s.map (·.id)).foldr max 0 + 1

/-- `get_memory`: fetch an item by key; missing parameter and missing row
both raise `ValueError` (with distinct messages). -/
def get_memory (s : Store) (p : Value) : HResult :=
  let keyV := vgetD p "key" .null
  if truthy keyV = false then .exn ⟨"ValueError", "Key parameter is required"⟩
  else
    match s.find? (keyIs keyV) with
    | none => .exn ⟨"ValueError", "Memory item with key \x27" ++ pyStr keyV ++ "\x27 not found"⟩
    | some it => .ok it.to_dict

/-- `set_memory`: create or update an item.  A falsy/absent key is replaced
by a fresh uuid; an existing row is updated in place (`updated_at`
refreshed), otherwise a new row is inserted with both timestamps set to
now. -/
def set_memory (c : MemCtx) (p : Value) : HResult × Store :=
  let keyV := vgetD p "key" .null
  let value := vgetD p "value" .null
  let metadata := vgetD p "metadata" (.obj [])
  let key := if truthy keyV then keyV else .str c.fresh
  match c.store.find? (keyIs key) with
  | some it0 =>
      let upd := fun it : MemoryItem =>
        { it with value := value, metadata := metadata, updated_at := c.now }
      (.ok (upd it0).to_dict, updateFirst (keyIs key) upd c.store)
  | none =>
      let item : MemoryItem := ⟨nextId c.store, key, value, metadata, c.now, c.now⟩
      (.ok item.to_dict, c.store ++ [item])

/-- `delete_memory`: remove an item by key; a missing key parameter or a
missing row raises `ValueError`. -/
def delete_memory (s : Store) (p : Value) : HResult × Store :=
  let keyV := vgetD p "key" .null
  if truthy keyV = false then (.exn ⟨"ValueError", "Key parameter is required"⟩, s)
  else
    match s.find? (keyIs keyV) with
    | none => (.exn ⟨"ValueError", "Memory item with key \x27" ++ pyStr keyV ++ "\x27 not found"⟩, s)
    | some _ =>
        (.ok (.obj [("success", .bool true),
                    ("message", .str ("Memory item with key " ++ pyStr keyV ++ " deleted successfully"))]),
         removeFirst (keyIs keyV) s)

/-- SQL `LIKE` containment for the configured SQLite engine: ASCII
case-insensitive substring match of the pattern between two wildcards. -/
def likeContains (s pat : String) : Bool :=
  decide (2 ≤ (s.toLower.splitOn pat.toLower).length)

/-- Python `int(...)` applied to a request value; `none` models the raised
conversion error. -/
def pyInt : Value → Option Int
  | .num n => some n
  | .bool true => some 1
  | .bool false => some 0
  | .str s => s.toInt?
  | _ => none

/-- The rows matching the optional `filterKey` substring filter
(`key LIKE :pattern`, skipped when the filter is falsy). -/
def memFilter (s : Store) (filter_key : Value) : Store :=
  if truthy filter_key then
    s.filter (fun it => likeContains (pyStr it.key) (pyStr filter_key))
  else s

/-- SQL `LIMIT ... OFFSET ...` on the configured SQLite engine: a negative
offset skips nothing and a negative limit disables the bound. -/
def sqlLimitOffset (limit offset : Int) (xs : List α) : List α :=
  let dropped := xs.drop offset.toNat
  if limit < 0 then dropped else dropped.take limit.toNat

/-- `list_memory`: filtered, paginated listing.  `total` counts all
matching rows before pagination; `limit`/`offset` are echoed after `int`
conversion (a failing conversion raises, modeled by the error branch). -/
def list_memory (s : Store) (p : Value) : HResult :=
  let filter_key := vgetD p "filterKey" .null
  match pyInt (vgetD p "limit" (.num 100)), pyInt (vgetD p "offset" (.num 0)) with
  | some limit, some offset =>
      let base := memFilter s filter_key
      let items := sqlLimitOffset limit offset (base.map MemoryItem.to_dict)
      .ok (.obj [("items", .arr items), ("total", .num base.length),
                 ("limit", .num limit), ("offset", .num offset)])
  | _, _ => .exn ⟨"TypeError", "int() conversion failed"⟩

/-- `search_memory`: rows whose value matches the query via `LIKE`. -/
def search_memory (s : Store) (p : Value) : HResult :=
  let q := vgetD p "q" .null
  if truthy q = false then .exn ⟨"ValueError", "Query parameter is required"⟩
  else
    let items := (s.filter (fun it => likeContains (pyStr it.value) (pyStr q))).map MemoryItem.to_dict
    .ok (.obj [("items", .arr items), ("count", .num items.length), ("query", q)])

/-- The `action_handlers` dictionary of `memory_tool.handle_action`. -/
def action_handlers : List (String × (Value → MemCtx → HResult × Store)) :=
  [("get", fun p c => (get_memory c.store p, c.store)),
   ("set", fun p c => set_memory c p),
   ("delete", fun p c => delete_memory c.store p),
   ("list", fun p c => (list_memory c.store p, c.store)),
   ("search", fun p c => (search_memory c.store p, c.store))]

/-- `memory_tool.handle_action`: dispatch on the action name, raising
`ValueError` for a name outside the dictionary. -/
def handle_action (c : MemCtx) (action p : Value) : HResult × Store :=
  match action_handlers.find? (fun e => Value.beq (.str e.1) action) with
  | some e => e.2 p c
  | none => (.exn ⟨"ValueError", "Unknown action: " ++ pyStr action⟩, c.store)

/-- The registered memory action names (the keys of `action_handlers`). -/
def actions : List String := action_handlers.map Prod.fst

end MemoryTool

/-- The observable outcome of a backend HTTP call (`requests.get`/`post`):
the status code and the parsed JSON body that `response.json()` yields. -/
structure HttpResp where
  status : Nat
  body : Value

namespace GithubTool

/-- `github_tool.list_repos`: requires `username`, then forwards the GitHub
response, raising on a non-200 status. -/
def list_repos (r : HttpResp) (p : Value) : HResult :=
  if truthy (vgetD p "username" .null) = false then
    .exn ⟨"ValueError", "Username parameter is required"⟩
  else if r.status ≠ 200 then .exn ⟨"Exception", "GitHub API error: " ++ pyStr r.body⟩
  else .ok r.body

/-- `github_tool.get_repo`: requires `owner` and `repo`. -/
def get_repo (r : HttpResp) (p : Value) : HResult :=
  if truthy (vgetD p "owner" .null) = false || truthy (vgetD p "repo" .null) = false then
    .exn ⟨"ValueError", "Owner and repo parameters are required"⟩
  else if r.status ≠ 200 then .exn ⟨"Exception", "GitHub API error: " ++ pyStr r.body⟩
  else .ok r.body

/-- `github_tool.search_repos`: requires `query`. -/
def search_repos (r : HttpResp) (p : Value) : HResult :=
  if truthy (vgetD p "query" .null) = false then
    .exn ⟨"ValueError", "Query parameter is required"⟩
  else if r.status ≠ 200 then .exn ⟨"Exception", "GitHub API error: " ++ pyStr r.body⟩
  else .ok r.body

/-- `github_tool.get_issues`: requires `owner` and `repo` (the `state`
parameter only shapes the upstream query, absorbed by the oracle). -/
def get_issues (r : HttpResp) (p : Value) : HResult :=
  if truthy (vgetD p "owner" .null) = false || truthy (vgetD p "repo" .null) = false then
    .exn ⟨"ValueError", "Owner and repo parameters are required"⟩
  else if r.status ≠ 200 then .exn ⟨"Exception", "GitHub API error: " ++ pyStr r.body⟩
  else .ok r.body

/-- `github_tool.create_issue`: requires `owner`, `repo` and `title`;
accepts 201 or 200 from the backend. -/
def create_issue (r : HttpResp) (p : Value) : HResult :=
  if truthy (vgetD p "owner" .null) = false || truthy (vgetD p "repo" .null) = false then
    .exn ⟨"ValueError", "Owner and repo parameters are required"⟩
  else if truthy (vgetD p "title" .null) = false then
    .exn ⟨"ValueError", "Title parameter is required"⟩
  else if r.status ≠ 201 && r.status ≠ 200 then
    .exn ⟨"Exception", "GitHub API error: " ++ pyStr r.body⟩
  else .ok r.body

/-- The `action_handlers` dictionary of `github_tool.handle_action`. -/
def action_handlers (r : HttpResp) : List (String × (Value → HResult)) :=
  [("listRepos", list_repos r), ("getRepo", get_repo r), ("searchRepos", search_repos r),
   ("getIssues", get_issues r), ("createIssue", create_issue r)]

/-- `github_tool.handle_action`. -/
def handle_action (r : HttpResp) (action p : Value) : HResult :=
  match (action_handlers r).find? (fun e => Value.beq (.str e.1) action) with
  | some e => e.2 p
  | none => .exn ⟨"ValueError", "Unknown action: " ++ pyStr action⟩

/-- The registered GitHub action names. -/
def actions : List String := (action_handlers ⟨200, .null⟩).map Prod.fst


end GithubTool

namespace GitlabTool

/-- `gitlab_tool.list_projects`: no required parameter. -/
def list_projects (r : HttpResp) (_p : Value) : HResult :=
  if r.status ≠ 200 then .exn ⟨"Exception", "GitLab API error: " ++ pyStr r.body⟩
  else .ok r.body

/-- `gitlab_tool.get_project`: requires `projectId`. -/
def get_project (r : HttpResp) (p : Value) : HResult :=
  if truthy (vgetD p "projectId" .null) = false then
    .exn ⟨"ValueError", "Project ID parameter is required"⟩
  else if r.status ≠ 200 then .exn ⟨"Exception", "GitLab API error: " ++ pyStr r.body⟩
  else .ok r.body

/-- `gitlab_tool.search_projects`: requires `query`. -/
def search_projects (r : HttpResp) (p : Value) : HResult :=
  if truthy (vgetD p "query" .null) = false then
    .exn ⟨"ValueError", "Query parameter is required"⟩
  else if r.status ≠ 200 then .exn ⟨"Exception", "GitLab API error: " ++ pyStr r.body⟩
  else .ok r.body

/-- `gitlab_tool.get_issues`: requires `projectId`. -/
def get_issues (r : HttpResp) (p : Value) : HResult :=
  if truthy (vgetD p "projectId" .null) = false then
    .exn ⟨"ValueError", "Project ID parameter is required"⟩
  else if r.status ≠ 200 then .exn ⟨"Exception", "GitLab API error: " ++ pyStr r.body⟩
  else .ok r.body

/-- `gitlab_tool.create_issue`: requires `projectId` and `title`; accepts
201 or 200. -/
def create_issue (r : HttpResp) (p : Value) : HResult :=
  if truthy (vgetD p "projectId" .null) = false then
    .exn ⟨"ValueError", "Project ID parameter is required"⟩
  else if truthy (vgetD p "title" .null) = false then
    .exn ⟨"ValueError", "Title parameter is required"⟩
  else if r.status ≠ 201 && r.status ≠ 200 then
    .exn ⟨"Exception", "GitLab API error: " ++ pyStr r.body⟩
  else .ok r.body

/-- `gitlab_tool.get_pipelines`: requires `projectId`. -/
def get_pipelines (r : HttpResp) (p : Value) : HResult :=
  if truthy (vgetD p "projectId" .null) = false then
    .exn ⟨"ValueError", "Project ID parameter is required"⟩
  else if r.status ≠ 200 then .exn ⟨"Exception", "GitLab API error: " ++ pyStr r.body⟩
  else .ok r.body

/-- The `action_handlers` dictionary of `gitlab_tool.handle_action`. -/
def action_handlers (r : HttpResp) : List (String × (Value → HResult)) :=
  [("listProjects", list_projects r), ("getProject", get_project r),
   ("searchProjects", search_projects r), ("getIssues", get_issues r),
   ("createIssue", create_issue r), ("getPipelines", get_pipelines r)]

/-- `gitlab_tool.handle_action`. -/
def handle_action (r : HttpResp) (action p : Value) : HResult :=
  match (action_handlers r).find? (fun e => Value.beq (.str e.1) action) with
  | some e => e.2 p
  | none => .exn ⟨"ValueError", "Unknown action: " ++ pyStr action⟩

/-- The registered GitLab action names. -/
def actions : List String := (action_handlers ⟨200, .null⟩).map Prod.fst


end GitlabTool

namespace GmapsTool

/-- `gmaps_tool.geocode`: requires `address`. -/
def geocode (r : HttpResp) (p : Value) : HResult :=
  if truthy (vgetD p "address" .null) = false then
    .exn ⟨"ValueError", "Address parameter is required"⟩
  else if r.status ≠ 200 then .exn ⟨"Exception", "Google Maps API error: " ++ pyStr r.body⟩
  else .ok r.body

/-- `gmaps_tool.reverse_geocode`: requires `lat` and `lng`. -/
def reverse_geocode (r : HttpResp) (p : Value) : HResult :=
  if truthy (vgetD p "lat" .null) = false || truthy (vgetD p "lng" .null) = false then
    .exn ⟨"ValueError", "Latitude and longitude parameters are required"⟩
  else if r.status ≠ 200 then .exn ⟨"Exception", "Google Maps API error: " ++ pyStr r.body⟩
  else .ok r.body

/-- `gmaps_tool.get_directions`: requires `origin` and `destination`. -/
def get_directions (r : HttpResp) (p : Value) : HResult :=
  if truthy (vgetD p "origin" .null) = false || truthy (vgetD p "destination" .null) = false then
    .exn ⟨"ValueError", "Origin and destination parameters are required"⟩
  else if r.status ≠ 200 then .exn ⟨"Exception", "Google Maps API error: " ++ pyStr r.body⟩
  else .ok r.body

/-- `gmaps_tool.search_places`: requires `query` or (`location` and
`type`). -/
def search_places (r : HttpResp) (p : Value) : HResult :=
  if truthy (vgetD p "query" .null) = false
      && !(truthy (vgetD p "location" .null) && truthy (vgetD p "type" .null)) then
    .exn ⟨"ValueError", "Either query or location with type parameters are required"⟩
  else if r.status ≠ 200 then .exn ⟨"Exception", "Google Maps API error: " ++ pyStr r.body⟩
  else .ok r.body

/-- `gmaps_tool.get_place_details`: requires `placeId`. -/
def get_place_details (r : HttpResp) (p : Value) : HResult :=
  if truthy (vgetD p "placeId" .null) = false then
    .exn ⟨"ValueError", "Place ID parameter is required"⟩
  else if r.status ≠ 200 then .exn ⟨"Exception", "Google Maps API error: " ++ pyStr r.body⟩
  else .ok r.body

/-- The `action_handlers` dictionary of `gmaps_tool.handle_action`. -/
def action_handlers (r : HttpResp) : List (String × (Value → HResult)) :=
  [("geocode", geocode r), ("reverseGeocode", reverse_geocode r),
   ("getDirections", get_directions r), ("searchPlaces", search_places r),
   ("getPlaceDetails", get_place_details r)]

/-- `gmaps_tool.handle_action`. -/
def handle_action (r : HttpResp) (action p : Value) : HResult :=
  match (action_handlers r).find? (fun e => Value.beq (.str e.1) action) with
  | some e => e.2 p
  | none => .exn ⟨"ValueError", "Unknown action: " ++ pyStr action⟩

/-- The registered Google Maps action names. -/
def actions : List String := (action_handlers ⟨200, .null⟩).map Prod.fst


end GmapsTool

namespace PuppeteerTool

/-- The observable outcome of running one of the generated Node scripts via
`subprocess.run(..., check=True)`, together with the file/parse effects the
Python code performs around it: `ok` carries the parsed stdout JSON and the
base64 encoding of the produced output file; `fail` is a
`CalledProcessError` carrying the parsed stderr when it is JSON (else
`none`) plus the raw stderr text; `err` is any other exception caught by the
trailing `except Exception` block. -/
inductive SubprocOutcome where
  | ok : Value → String → SubprocOutcome
  | fail : Option Value → String → SubprocOutcome
  | err : String → SubprocOutcome

/-- The `error` value a failed script run is reported with:
`error_data.get('error', error_message)` when stderr parses as JSON, the raw
stderr string otherwise. -/
def failError (parsed : Option Value) (raw : String) : Value :=
  match parsed with
  | some v => vgetD v "error" (.str raw)
  | none => .str raw

/-- `puppeteer_tool.take_screenshot`: requires `url`; on success returns the
base64 image, and on a failed subprocess returns a plain value with
`success: false` (no exception is raised). -/
def take_screenshot (sp : SubprocOutcome) (p : Value) : HResult :=
  let image_type := vgetD p "type" (.str "png")
  if truthy (vgetD p "url" .null) = false then
    .exn ⟨"ValueError", "URL parameter is required"⟩
  else
    match sp with
    | .ok _ fileB64 =>
        .ok (.obj [("success", .bool true), ("imageType", image_type),
                   ("base64Image", .str fileB64)])
    | .fail parsed raw => .ok (.obj [("success", .bool false), ("error", failError parsed raw)])
    | .err m => .ok (.obj [("success", .bool false), ("error", .str m)])

/-- `puppeteer_tool.generate_pdf`: requires `url`; same success/failure
shape as `take_screenshot` with a base64 PDF. -/
def generate_pdf (sp : SubprocOutcome) (p : Value) : HResult :=
  if truthy (vgetD p "url" .null) = false then
    .exn ⟨"ValueError", "URL parameter is required"⟩
  else
    match sp with
    | .ok _ fileB64 => .ok (.obj [("success", .bool true), ("base64Pdf", .str fileB64)])
    | .fail parsed raw => .ok (.obj [("success", .bool false), ("error", failError parsed raw)])
    | .err m => .ok (.obj [("success", .bool false), ("error", .str m)])

/-- `puppeteer_tool.extract_content`: requires `url`; on success returns the
`content` field of the parsed stdout. -/
def extract_content (sp : SubprocOutcome) (p : Value) : HResult :=
  if truthy (vgetD p "url" .null) = false then
    .exn ⟨"ValueError", "URL parameter is required"⟩
  else
    match sp with
    | .ok parsed _ => .ok (.obj [("success", .bool true), ("content", vgetD parsed "content" .null)])
    | .fail parsed raw => .ok (.obj [("success", .bool false), ("error", failError parsed raw)])
    | .err m => .ok (.obj [("success", .bool false), ("error", .str m)])

/-- The `action_handlers` dictionary of `puppeteer_tool.handle_action` (the
preceding `ensure_script_dir` call only touches the filesystem and has no
observable effect on the response). -/
def action_handlers (sp : SubprocOutcome) : List (String × (Value → HResult)) :=
  [("screenshot", take_screenshot sp), ("pdf", generate_pdf sp), ("extract", extract_content sp)]

/-- `puppeteer_tool.handle_action`. -/
def handle_action (sp : SubprocOutcome) (action p : Value) : HResult :=
  match (action_handlers sp).find? (fun e => Value.beq (.str e.1) action) with
  | some e => e.2 p
  | none => .exn ⟨"ValueError", "Unknown action: " ++ pyStr action⟩

/-- The registered puppeteer action names. -/
def actions : List String := (action_handlers (.err "")).map Prod.fst


end PuppeteerTool

/-- The five tool modules the gateway imports, as the functions its
dispatch chain calls (`handle_action(action, parameters)` of each
module, with the module's external effects already fixed by oracles). -/
structure ToolHandlers where
  github : Value → Value → HResult
  gitlab : Value → Value → HResult
  gmaps : Value → Value → HResult
  memory : Value → Value → HResult
  puppeteer : Value → Value → HResult

/-- The `if tool_name == ... : handle_action(...)` chain inside
`mcp_gateway`; `none` is the final `else` (unknown tool). -/
def dispatchTool (th : ToolHandlers) (tool_name action parameters : Value) : Option HResult :=
  if Value.beq tool_name (.str "github") then some (th.github action parameters)
  else if Value.beq tool_name (.str "gitlab") then some (th.gitlab action parameters)
  else if Value.beq tool_name (.str "gmaps") then some (th.gmaps action parameters)
  else if Value.beq tool_name (.str "memory") then some (th.memory action parameters)
  else if Value.beq tool_name (.str "puppeteer") then some (th.puppeteer action parameters)
  else none

/-- `app.mcp_gateway`: the POST `/mcp/gateway` endpoint.  Input is the parsed
JSON body (`none` when `request.get_json()` yields nothing); output is the
JSON response together with the HTTP status code. -/
def mcp_gateway (th : ToolHandlers) (data : Option Value) : Value × Nat :=
  match data with
  | none => (.obj [("error", .str "Request body is required")], 400)
  | some d =>
    if truthy d = false then (.obj [("error", .str "Request body is required")], 400)
    else
      let tool_name := vgetD d "tool" .null
      let action := vgetD d "action" .null
      let parameters := vgetD d "parameters" (.obj [])
      if truthy tool_name = false then (.obj [("error", .str "Tool name is required")], 400)
      else if truthy action = false then (.obj [("error", .str "Action is required")], 400)
      else
        match dispatchTool th tool_name action parameters with
        | none => (.obj [("error", .str ("Unknown tool: " ++ pyStr tool_name))], 404)
        | some (.ok result) =>
            (.obj [("tool", tool_name), ("action", action),
                   ("status", .str "success"), ("result", result)], 200)
        | some (.exn e) =>
            (.obj [("tool", tool_name), ("action", action), ("status", .str "error"),
                   ("error", .obj [("type", .str e.type), ("message", .str e.message)])], 500)

/-- A gateway request body `{"tool": ..., "action": ..., "parameters": ...}`. -/
def mkReq (tool action parameters : Value) : Value :=
  .obj [("tool", tool), ("action", action), ("parameters", parameters)]

/-- The action names listed per tool by the manifest literal returned by
`app.mcp_manifest` (its projection to tool and action names, in source
order; the claims under verification only concern these names and their
multiplicities). -/
def mcp_manifest_actions : List (String × List String) :=
  [("github", ["listRepos", "getRepo", "searchRepos", "getIssues", "createIssue"]),
   ("gitlab", ["listProjects", "getProject", "searchProjects"]),
   ("gmaps", ["geocode", "reverseGeocode", "getDirections"]),
   ("memory", ["get", "set", "delete", "list"]),
   ("puppeteer", ["screenshot", "pdf", "extract"])]

/-- The action names per tool that the gateway's dispatch chain can resolve
to a handler: the five tool names of `dispatchTool` paired with the keys of
each module's `action_handlers` dictionary. -/
def registry_actions : List (String × List String) :=
  [("github", GithubTool.actions), ("gitlab", GitlabTool.actions),
   ("gmaps", GmapsTool.actions), ("memory", MemoryTool.actions),
   ("puppeteer", PuppeteerTool.actions)]

/-- Flatten a tool-to-actions table into (tool, action) pairs. -/
def toolActionPairs (l : List (String × List String)) : List (String × String) :=
  l.flatMap (fun t => t.2.map (fun a => (t.1, a)))

/-- All (tool, action) pairs dispatch can resolve. -/
def registry_pairs : List (String × String) := toolActionPairs registry_actions

/-- All (tool, action) pairs the manifest advertises. -/
def manifest_pairs : List (String × String) := toolActionPairs mcp_manifest_actions

/-- The dispatchable pairs the manifest omits. -/
def unadvertised_pairs : List (String × String) :=
  [("gitlab", "getIssues"), ("gitlab", "createIssue"), ("gitlab", "getPipelines"),
   ("gmaps", "searchPlaces"), ("gmaps", "getPlaceDetails"), ("memory", "search")]

/-- A gateway wiring in which every module returns `null` (used where the
statement does not depend on the backends). -/
def trivialHandlers : ToolHandlers :=
  ⟨fun _ _ => .ok .null, fun _ _ => .ok .null, fun _ _ => .ok .null,
   fun _ _ => .ok .null, fun _ _ => .ok .null⟩

/-- The gateway wired to the real memory module at a given context. -/
def memoryHandlers (c : MemoryTool.MemCtx) : ToolHandlers :=
  { trivialHandlers with memory := fun a p => (MemoryTool.handle_action c a p).1 }

/-- The gateway wired to the real puppeteer module at a given subprocess
outcome. -/
def puppeteerHandlers (sp : PuppeteerTool.SubprocOutcome) : ToolHandlers :=
  { trivialHandlers with puppeteer := fun a p => PuppeteerTool.handle_action sp a p }

/-- A sample row used by concrete counterexamples. -/
def sampleItem : MemoryTool.MemoryItem := ⟨1, .str "a", .null, .obj [], 0, 0⟩

theorem truthy_mkReq (t a p : Value) : truthy (mkReq t a p) = true := rfl

theorem vget_mkReq_tool (t a p : Value) : vgetD (mkReq t a p) "tool" .null = t := rfl

theorem vget_mkReq_action (t a p : Value) : vgetD (mkReq t a p) "action" .null = a := rfl

theorem vget_mkReq_parameters (t a p : Value) :
    vgetD (mkReq t a p) "parameters" (.obj []) = p := rfl

theorem github_actions_eq_keys (r : HttpResp) :
    (GithubTool.action_handlers r).map Prod.fst = GithubTool.actions := rfl

theorem gitlab_actions_eq_keys (r : HttpResp) :
    (GitlabTool.action_handlers r).map Prod.fst = GitlabTool.actions := rfl

theorem gmaps_actions_eq_keys (r : HttpResp) :
    (GmapsTool.action_handlers r).map Prod.fst = GmapsTool.actions := rfl

theorem puppeteer_actions_eq_keys (sp : PuppeteerTool.SubprocOutcome) :
    (PuppeteerTool.action_handlers sp).map Prod.fst = PuppeteerTool.actions := rfl

/-- C1 counterexample: the (memory, search) pair is resolvable by dispatch
(the memory module registers a `search` handler) but the manifest does not
list it, refuting the advertised/resolvable equivalence as stated. -/
theorem C1_manifest_registry_counterexample :
    ("memory", "search") ∈ registry_pairs ∧ ("memory", "search") ∉ manifest_pairs := by
  decide

/-- C1 (amended): every action the manifest advertises is listed exactly
once and is resolvable by dispatch under the same tool and action names;
conversely, a dispatch-resolvable action is either advertised or is one of
the six unadvertised pairs (gitlab getIssues/createIssue/getPipelines,
gmaps searchPlaces/getPlaceDetails, memory search), none of which the
manifest lists. -/
theorem C1_manifest_registry_amended :
    (manifest_pairs.all
        (fun q => registry_pairs.contains q && manifest_pairs.count q == 1) = true)
    ∧ (registry_pairs.all
        (fun q => manifest_pairs.contains q || unadvertised_pairs.contains q) = true)
    ∧ (unadvertised_pairs.all
        (fun q => registry_pairs.contains q && !manifest_pairs.contains q) = true) := by
  refine ⟨?_, ?_, ?_⟩ <;> rfl

theorem dispatchTool_eq_none (th : ToolHandlers) (s : String) (av pv : Value)
    (h : s ∉ registry_actions.map Prod.fst) :
    dispatchTool th (.str s) av pv = none := by
  have he : registry_actions.map Prod.fst
      = ["github", "gitlab", "gmaps", "memory", "puppeteer"] := rfl
  rw [he] at h
  simp only [List.mem_cons, List.not_mem_nil, or_false, not_or] at h
  obtain ⟨h1, h2, h3, h4, h5⟩ := h
  simp [dispatchTool, Value.beq, h1, h2, h3, h4, h5]

/-- C6 counterexample: a request with `tool=""` yields the flat body
`{"error": "Tool name is required"}` with HTTP 400 — there is no `status`
field, no envelope, and no `MissingTool` error kind. -/
theorem C6_missing_tool_counterexample :
    mcp_gateway trivialHandlers (some (mkReq (.str "") (.str "list") (.obj [("x", .num 1)])))
      = (.obj [("error", .str "Tool name is required")], 400)
    ∧ vget (.obj [("error", .str "Tool name is required")]) "status" = none
    ∧ vget (.obj [("error", .str "Tool name is required")]) "error"
        = some (.str "Tool name is required") :=
  ⟨rfl, rfl, rfl⟩

/-- C6 (amended): for every nonempty request body whose `tool` field is
falsy (absent or empty), the gateway returns the flat body
`{"error": "Tool name is required"}` with HTTP 400, regardless of the
`action` and `parameters` supplied, and independently of every tool handler
(so no registry lookup or handler invocation can influence the response). -/
theorem C6_missing_tool_amended (th th' : ToolHandlers) (fs : List (String × Value))
    (hne : fs ≠ []) (htool : truthy (vgetD (.obj fs) "tool" .null) = false) :
    mcp_gateway th (some (.obj fs)) = (.obj [("error", .str "Tool name is required")], 400)
    ∧ mcp_gateway th (some (.obj fs)) = mcp_gateway th' (some (.obj fs)) := by
  have hd : truthy (.obj fs) = true := by
    cases fs with
    | nil => exact absurd rfl hne
    | cons a l => rfl
  refine ⟨?_, ?_⟩ <;> simp [mcp_gateway, hd, htool]

/-- C6 witness: the amended statement at `tool=""`, `action="list"`. -/
theorem C6_missing_tool_witness :
    mcp_gateway trivialHandlers (some (.obj [("tool", .str ""), ("action", .str "list")]))
      = (.obj [("error", .str "Tool name is required")], 400)
    ∧ mcp_gateway trivialHandlers (some (.obj [("tool", .str ""), ("action", .str "list")]))
      = mcp_gateway (memoryHandlers ⟨[], 0, "u"⟩)
          (some (.obj [("tool", .str ""), ("action", .str "list")])) :=
  C6_missing_tool_amended trivialHandlers (memoryHandlers ⟨[], 0, "u"⟩)
    [("tool", .str ""), ("action", .str "list")] (List.cons_ne_nil _ _) rfl

/-- C8 counterexample: a dispatch naming the unregistered tool `slack`
returns HTTP 404 on the gateway path, not the 500 the claim asserts for
unknown-tool failures. -/
theorem C8_http_status_counterexample :
    (mcp_gateway trivialHandlers (some (mkReq (.str "slack") (.str "listRepos") (.obj [])))).2 = 404
    ∧ (404 : Nat) ≠ 500 :=
  ⟨rfl, by decide⟩

/-- C8 (amended): gateway HTTP status mapping — 200 with the success
envelope when the resolved handler returns, 500 when it raises, 404 (not
500) with the flat unknown-tool body when the tool is not registered, and
400 when the tool or the action is missing/falsy. -/
theorem C8_http_status_amended :
    (∀ (th : ToolHandlers) (tv av pv v : Value),
        truthy tv = true → truthy av = true →
        dispatchTool th tv av pv = some (.ok v) →
        mcp_gateway th (some (mkReq tv av pv)) =
          (.obj [("tool", tv), ("action", av), ("status", .str "success"), ("result", v)], 200))
    ∧ (∀ (th : ToolHandlers) (tv av pv : Value) (e : Exn),
        truthy tv = true → truthy av = true →
        dispatchTool th tv av pv = some (.exn e) →
        (mcp_gateway th (some (mkReq tv av pv))).2 = 500)
    ∧ (∀ (th : ToolHandlers) (s : String) (av pv : Value),
        s ∉ registry_actions.map Prod.fst → s ≠ "" → truthy av = true →
        mcp_gateway th (some (mkReq (.str s) av pv)) =
          (.obj [("error", .str ("Unknown tool: " ++ s))], 404))
    ∧ (∀ (th : ToolHandlers) (tv av pv : Value), truthy tv = false →
        (mcp_gateway th (some (mkReq tv av pv))).2 = 400)
    ∧ (∀ (th : ToolHandlers) (tv av pv : Value), truthy tv = true → truthy av = false →
        (mcp_gateway th (some (mkReq tv av pv))).2 = 400) := by
  refine ⟨?_, ?_, ?_, ?_, ?_⟩
  · intro th tv av pv v htv hav hd
    simp [mcp_gateway, truthy_mkReq, vget_mkReq_tool, vget_mkReq_action,
          vget_mkReq_parameters, htv, hav, hd]
  · intro th tv av pv e htv hav hd
    simp [mcp_gateway, truthy_mkReq, vget_mkReq_tool, vget_mkReq_action,
          vget_mkReq_parameters, htv, hav, hd]
  · intro th s av pv hs hs0 hav
    have htv : truthy (.str s) = true := by simp [truthy, hs0]
    simp [mcp_gateway, truthy_mkReq, vget_mkReq_tool, vget_mkReq_action,
          vget_mkReq_parameters, htv, hav, dispatchTool_eq_none th s av pv hs, pyStr]
  · intro th tv av pv htv
    simp [mcp_gateway, truthy_mkReq, vget_mkReq_tool, htv]
  · intro th tv av pv htv hav
    simp [mcp_gateway, truthy_mkReq, vget_mkReq_tool, vget_mkReq_action, htv, hav]

/-- C8 witness: all five status cases at concrete requests — a trivial
github success (200), a memory `get` with a missing key (500), the unknown
tool `slack` (404), and missing tool/action (400). -/
theorem C8_http_status_witness :
    mcp_gateway trivialHandlers (some (mkReq (.str "github") (.str "listRepos") (.obj []))) =
      (.obj [("tool", .str "github"), ("action", .str "listRepos"),
             ("status", .str "success"), ("result", .null)], 200)
    ∧ (mcp_gateway (memoryHandlers ⟨[], 0, "u"⟩)
        (some (mkReq (.str "memory") (.str "get") (.obj [])))).2 = 500
    ∧ mcp_gateway trivialHandlers (some (mkReq (.str "slack") (.str "listRepos") (.obj []))) =
      (.obj [("error", .str "Unknown tool: slack")], 404)
    ∧ (mcp_gateway trivialHandlers (some (mkReq .null (.str "listRepos") (.obj [])))).2 = 400
    ∧ (mcp_gateway trivialHandlers (some (mkReq (.str "github") .null (.obj [])))).2 = 400 :=
  ⟨C8_http_status_amended.1 trivialHandlers (.str "github") (.str "listRepos") (.obj []) .null
      rfl rfl rfl,
   C8_http_status_amended.2.1 (memoryHandlers ⟨[], 0, "u"⟩) (.str "memory") (.str "get")
      (.obj []) ⟨"ValueError", "Key parameter is required"⟩ rfl rfl rfl,
   C8_http_status_amended.2.2.1 trivialHandlers "slack" (.str "listRepos") (.obj [])
      (by decide) (by decide) rfl,
   C8_http_status_amended.2.2.2.1 trivialHandlers .null (.str "listRepos") (.obj []) rfl,
   C8_http_status_amended.2.2.2.2 trivialHandlers (.str "github") .null (.obj []) rfl rfl⟩

theorem memory_handle_action_unknown (c : MemoryTool.MemCtx) (sa : String)
    (h : sa ∉ MemoryTool.actions) (p : Value) :
    MemoryTool.handle_action c (.str sa) p =
      (.exn ⟨"ValueError", "Unknown action: " ++ sa⟩, c.store) := by
  have he : MemoryTool.actions = ["get", "set", "delete", "list", "search"] := rfl
  rw [he] at h
  simp only [List.mem_cons, List.not_mem_nil, or_false, not_or] at h
  obtain ⟨h1, h2, h3, h4, h5⟩ := h
  simp [MemoryTool.handle_action, MemoryTool.action_handlers, List.find?, Value.beq,
        beq_false_of_ne (Ne.symm h1), beq_false_of_ne (Ne.symm h2),
        beq_false_of_ne (Ne.symm h3), beq_false_of_ne (Ne.symm h4),
        beq_false_of_ne (Ne.symm h5), pyStr]

/-- C2 counterexample: an unregistered tool yields the flat 404 body
`{"error": "Unknown tool: slack"}` with no `status` field and no error kind
at all, and an unregistered memory action yields an envelope whose error
type is `ValueError` — neither response carries an `UnknownTool` or
`UnknownAction` kind. -/
theorem C2_error_kinds_counterexample :
    mcp_gateway trivialHandlers (some (mkReq (.str "slack") (.str "get") (.obj [])))
      = (.obj [("error", .str "Unknown tool: slack")], 404)
    ∧ vget (.obj [("error", .str "Unknown tool: slack")]) "status" = none
    ∧ mcp_gateway (memoryHandlers ⟨[], 0, "u"⟩)
        (some (mkReq (.str "memory") (.str "frobnicate") (.obj [])))
      = (.obj [("tool", .str "memory"), ("action", .str "frobnicate"),
               ("status", .str "error"),
               ("error", .obj [("type", .str "ValueError"),
                               ("message", .str "Unknown action: frobnicate")])], 500)
    ∧ ("ValueError" : String) ≠ "UnknownTool" ∧ ("ValueError" : String) ≠ "UnknownAction" :=
  ⟨rfl, rfl, rfl, by decide, by decide⟩

/-- C2 (amended): an unregistered tool name produces the flat body
`{"error": "Unknown tool: <tool>"}` with HTTP 404 (no envelope, no error
kind field), while a registered tool with an unregistered action produces an
error envelope whose kind field is the Python exception name `ValueError`
and whose message is `Unknown action: <action>` — the two failures are
distinguishable by response shape and message, but not by a dedicated
`UnknownTool`/`UnknownAction` kind. -/
theorem C2_error_kinds_amended :
    (∀ (th : ToolHandlers) (s : String) (av pv : Value),
        s ∉ registry_actions.map Prod.fst → s ≠ "" → truthy av = true →
        mcp_gateway th (some (mkReq (.str s) av pv)) =
          (.obj [("error", .str ("Unknown tool: " ++ s))], 404))
    ∧ (∀ (c : MemoryTool.MemCtx) (sa : String) (p : Value), sa ∉ MemoryTool.actions →
        (MemoryTool.handle_action c (.str sa) p).1 =
          .exn ⟨"ValueError", "Unknown action: " ++ sa⟩)
    ∧ (∀ (c : MemoryTool.MemCtx) (sa : String) (pv : Value),
        sa ∉ MemoryTool.actions → sa ≠ "" →
        mcp_gateway (memoryHandlers c) (some (mkReq (.str "memory") (.str sa) pv)) =
          (.obj [("tool", .str "memory"), ("action", .str sa), ("status", .str "error"),
                 ("error", .obj [("type", .str "ValueError"),
                                 ("message", .str ("Unknown action: " ++ sa))])], 500)) := by
  refine ⟨?_, ?_, ?_⟩
  · intro th s av pv hs hs0 hav
    have htv : truthy (.str s) = true := by simp [truthy, hs0]
    simp [mcp_gateway, truthy_mkReq, vget_mkReq_tool, vget_mkReq_action,
          vget_mkReq_parameters, htv, hav, dispatchTool_eq_none th s av pv hs, pyStr]
  · intro c sa p h
    rw [memory_handle_action_unknown c sa h p]
  · intro c sa pv h hs0
    have hav : truthy (.str sa) = true := by simp [truthy, hs0]
    have hd : dispatchTool (memoryHandlers c) (.str "memory") (.str sa) pv =
        some (.exn ⟨"ValueError", "Unknown action: " ++ sa⟩) := by
      simp [dispatchTool, Value.beq, memoryHandlers,
            memory_handle_action_unknown c sa h pv]
    simp only [mcp_gateway, truthy_mkReq, vget_mkReq_tool, vget_mkReq_action,
          vget_mkReq_parameters, hav, hd]
    simp
    rfl

/-- C2 witness: the amended statement at the unregistered tool `slack` and
the unregistered memory action `frobnicate`. -/
theorem C2_error_kinds_witness :
    mcp_gateway trivialHandlers (some (mkReq (.str "slack") (.str "set") (.obj [])))
      = (.obj [("error", .str "Unknown tool: slack")], 404)
    ∧ (MemoryTool.handle_action ⟨[], 0, "u"⟩ (.str "frobnicate") (.obj [])).1
      = .exn ⟨"ValueError", "Unknown action: frobnicate"⟩
    ∧ mcp_gateway (memoryHandlers ⟨[], 0, "u"⟩)
        (some (mkReq (.str "memory") (.str "frobnicate") (.obj [])))
      = (.obj [("tool", .str "memory"), ("action", .str "frobnicate"),
               ("status", .str "error"),
               ("error", .obj [("type", .str "ValueError"),
                               ("message", .str "Unknown action: frobnicate")])], 500) :=
  ⟨C2_error_kinds_amended.1 trivialHandlers "slack" (.str "set") (.obj [])
      (by decide) (by decide) rfl,
   C2_error_kinds_amended.2.1 ⟨[], 0, "u"⟩ "frobnicate" (.obj []) (by decide),
   C2_error_kinds_amended.2.2 ⟨[], 0, "u"⟩ "frobnicate" (.obj []) (by decide) (by decide)⟩

/-- C3 counterexample: a puppeteer screenshot dispatch whose subprocess
fails is delivered as a `status: "success"` envelope (HTTP 200) whose
result is the handler failure object `{"success": false, "error": ...}` —
a failure inside a success envelope, refuting the claim that `status`
alone discriminates success from failure. -/
theorem C3_status_discrimination_counterexample :
    mcp_gateway (puppeteerHandlers (.fail none "node: not found"))
        (some (mkReq (.str "puppeteer") (.str "screenshot")
                     (.obj [("url", .str "https://example.com")])))
      = (.obj [("tool", .str "puppeteer"), ("action", .str "screenshot"),
               ("status", .str "success"),
               ("result", .obj [("success", .bool false), ("error", .str "node: not found")])], 200)
    ∧ vget (.obj [("success", .bool false), ("error", .str "node: not found")]) "success"
        = some (.bool false) :=
  ⟨rfl, rfl⟩

/-- C3 (amended): every handler fault that is raised as an exception is
translated into a `status: "error"` envelope carrying a type/message error
object (HTTP 500); however, a failed puppeteer subprocess run is returned
as the plain value `{"success": false, "error": <stderr>}`, which the
gateway wraps in a `status: "success"` envelope — so `status` alone does
not discriminate success from failure for the puppeteer actions. -/
theorem C3_status_discrimination_amended :
    (∀ (th : ToolHandlers) (tv av pv : Value) (e : Exn),
        truthy tv = true → truthy av = true →
        dispatchTool th tv av pv = some (.exn e) →
        mcp_gateway th (some (mkReq tv av pv)) =
          (.obj [("tool", tv), ("action", av), ("status", .str "error"),
                 ("error", .obj [("type", .str e.type), ("message", .str e.message)])], 500))
    ∧ (∀ (raw : String) (p : Value), truthy (vgetD p "url" .null) = true →
        PuppeteerTool.take_screenshot (.fail none raw) p =
          .ok (.obj [("success", .bool false), ("error", .str raw)])) := by
  refine ⟨?_, ?_⟩
  · intro th tv av pv e htv hav hd
    simp [mcp_gateway, truthy_mkReq, vget_mkReq_tool, vget_mkReq_action,
          vget_mkReq_parameters, htv, hav, hd]
  · intro raw p hurl
    simp [PuppeteerTool.take_screenshot, PuppeteerTool.failError, hurl]

/-- C3 witness: the amended statement at a memory `get` raising
`ValueError` (wrapped as a 500 error envelope) and at a concrete failing
screenshot run. -/
theorem C3_status_discrimination_witness :
    mcp_gateway (memoryHandlers ⟨[], 0, "u"⟩)
        (some (mkReq (.str "memory") (.str "get") (.obj [])))
      = (.obj [("tool", .str "memory"), ("action", .str "get"), ("status", .str "error"),
               ("error", .obj [("type", .str "ValueError"),
                               ("message", .str "Key parameter is required")])], 500)
    ∧ PuppeteerTool.take_screenshot (.fail none "boom")
        (.obj [("url", .str "https://example.com")])
      = .ok (.obj [("success", .bool false), ("error", .str "boom")]) :=
  ⟨C3_status_discrimination_amended.1 (memoryHandlers ⟨[], 0, "u"⟩) (.str "memory")
      (.str "get") (.obj []) ⟨"ValueError", "Key parameter is required"⟩ rfl rfl rfl,
   C3_status_discrimination_amended.2 "boom" (.obj [("url", .str "https://example.com")]) rfl⟩

/-- C7 counterexample: omitting the required `username` of github
`listRepos` raises `ValueError` — the error kind surfaced in the envelope
is the exception name `ValueError`, not `InvalidParameters`. -/
theorem C7_invalid_parameters_counterexample :
    GithubTool.list_repos ⟨200, .null⟩ (.obj [])
      = .exn ⟨"ValueError", "Username parameter is required"⟩
    ∧ ("ValueError" : String) ≠ "InvalidParameters" :=
  ⟨rfl, by decide⟩

/-- C7 (amended): omitting (or passing a falsy value for) a required
parameter raises `ValueError` with a message naming the field, before any
backend work is observable (the result is the same for every backend
oracle and store); any truthy value proceeds to the backend call (github
`listRepos`) or the store lookup (memory `get`). -/
theorem C7_invalid_parameters_amended :
    (∀ (r : HttpResp) (p : Value), truthy (vgetD p "username" .null) = false →
        GithubTool.list_repos r p = .exn ⟨"ValueError", "Username parameter is required"⟩)
    ∧ (∀ (p b : Value), truthy (vgetD p "username" .null) = true →
        GithubTool.list_repos ⟨200, b⟩ p = .ok b)
    ∧ (∀ (p b : Value) (code : Nat), truthy (vgetD p "username" .null) = true →
        code ≠ 200 →
        GithubTool.list_repos ⟨code, b⟩ p = .exn ⟨"Exception", "GitHub API error: " ++ pyStr b⟩)
    ∧ (∀ (s : MemoryTool.Store) (p : Value), truthy (vgetD p "key" .null) = false →
        MemoryTool.get_memory s p = .exn ⟨"ValueError", "Key parameter is required"⟩)
    ∧ (∀ (s : MemoryTool.Store) (p : Value) (it : MemoryTool.MemoryItem),
        truthy (vgetD p "key" .null) = true →
        s.find? (MemoryTool.keyIs (vgetD p "key" .null)) = some it →
        MemoryTool.get_memory s p = .ok it.to_dict) := by
  refine ⟨?_, ?_, ?_, ?_, ?_⟩
  · intro r p h
    simp [GithubTool.list_repos, h]
  · intro p b h
    simp [GithubTool.list_repos, h]
  · intro p b code h hc
    simp [GithubTool.list_repos, h, hc]
  · intro s p h
    simp [MemoryTool.get_memory, h]
  · intro s p it h hf
    simp [MemoryTool.get_memory, h, hf]

/-- C7 witness: the amended statement at concrete github and memory
requests (missing parameter, backend success, backend failure, store
hit). -/
theorem C7_invalid_parameters_witness :
    GithubTool.list_repos ⟨200, .arr []⟩ (.obj [])
      = .exn ⟨"ValueError", "Username parameter is required"⟩
    ∧ GithubTool.list_repos ⟨200, .arr []⟩ (.obj [("username", .str "octocat")]) = .ok (.arr [])
    ∧ GithubTool.list_repos ⟨404, .null⟩ (.obj [("username", .str "octocat")])
      = .exn ⟨"Exception", "GitHub API error: None"⟩
    ∧ MemoryTool.get_memory [sampleItem] (.obj [])
      = .exn ⟨"ValueError", "Key parameter is required"⟩
    ∧ MemoryTool.get_memory [sampleItem] (.obj [("key", .str "a")])
      = .ok sampleItem.to_dict :=
  ⟨C7_invalid_parameters_amended.1 ⟨200, .arr []⟩ (.obj []) rfl,
   C7_invalid_parameters_amended.2.1 (.obj [("username", .str "octocat")]) (.arr []) rfl,
   C7_invalid_parameters_amended.2.2.1 (.obj [("username", .str "octocat")]) .null 404
      rfl (by decide),
   C7_invalid_parameters_amended.2.2.2.1 [sampleItem] (.obj []) rfl,
   C7_invalid_parameters_amended.2.2.2.2 [sampleItem] (.obj [("key", .str "a")]) sampleItem
      rfl rfl⟩

theorem find?_updateFirst_pres {α : Type} (p : α → Bool) (f : α → α)
    (hf : ∀ a, p a = true → p (f a) = true) (l : List α) (x : α)
    (h : l.find? p = some x) : (updateFirst p f l).find? p = some (f x) := by
  induction l with
  | nil => simp [List.find?] at h
  | cons a l ih =>
      cases ha : p a with
      | true =>
          rw [List.find?_cons_of_pos _ ha] at h
          obtain rfl : a = x := by injection h
          simp [updateFirst, ha, List.find?_cons_of_pos _ (hf a ha)]
      | false =>
          rw [List.find?_cons_of_neg _ (by simp [ha])] at h
          have hstep : updateFirst p f (a :: l) = a :: updateFirst p f l := by
            simp [updateFirst, ha]
          rw [hstep, List.find?_cons_of_neg _ (by simp [ha])]
          exact ih h

theorem find?_append_one {α : Type} (p : α → Bool) (l : List α) (x : α)
    (h : l.find? p = none) (hx : p x = true) : (l ++ [x]).find? p = some x := by
  induction l with
  | nil => simp [List.find?_cons_of_pos _ hx]
  | cons a l ih =>
      rw [List.find?_eq_none] at h
      have ha : p a = false := by
        have := h a (by simp)
        simpa using this
      have hl : l.find? p = none := by
        rw [List.find?_eq_none]
        intro y hy
        exact h y (by simp [hy])
      simp only [List.cons_append]
      rw [List.find?_cons_of_neg _ (by simp [ha])]
      exact ih hl

theorem find?_removeFirst_of_count {α : Type} (p : α → Bool) (l : List α)
    (hc : l.countP p ≤ 1) : (removeFirst p l).find? p = none := by
  induction l with
  | nil => simp [removeFirst, List.find?]
  | cons a l ih =>
      cases ha : p a with
      | true =>
          have h0 : l.countP p = 0 := by
            rw [List.countP_cons_of_pos _ _ ha] at hc
            omega
          rw [List.countP_eq_zero] at h0
          have hstep : removeFirst p (a :: l) = l := by simp [removeFirst, ha]
          rw [hstep, List.find?_eq_none]
          exact h0
      | false =>
          have hc' : l.countP p ≤ 1 := by
            rw [List.countP_cons_of_neg _ _ (by simp [ha])] at hc
            exact hc
          have hstep : removeFirst p (a :: l) = a :: removeFirst p l := by
            simp [removeFirst, ha]
          rw [hstep, List.find?_cons_of_neg _ (by simp [ha])]
          exact ih hc'

theorem resField_to_dict_key (it : MemoryTool.MemoryItem) :
    resField (.ok it.to_dict) "key" = some it.key := rfl

theorem resField_to_dict_value (it : MemoryTool.MemoryItem) :
    resField (.ok it.to_dict) "value" = some it.value := rfl

theorem resField_to_dict_created (it : MemoryTool.MemoryItem) :
    resField (.ok it.to_dict) "created_at" = some (.num it.created_at) := rfl

theorem resField_to_dict_updated (it : MemoryTool.MemoryItem) :
    resField (.ok it.to_dict) "updated_at" = some (.num it.updated_at) := rfl

theorem keyIs_str_self (k : String) (id : Nat) (v m : Value) (t1 t2 : Nat) :
    MemoryTool.keyIs (.str k) ⟨id, .str k, v, m, t1, t2⟩ = true := by
  simp [MemoryTool.keyIs, Value.beq]

theorem keyIs_update_pres (kv v m : Value) (t : Nat) (it : MemoryTool.MemoryItem)
    (h : MemoryTool.keyIs kv it = true) :
    MemoryTool.keyIs kv { it with value := v, metadata := m, updated_at := t } = true := h

theorem set_memory_update (c : MemoryTool.MemCtx) (p kv : Value)
    (it0 : MemoryTool.MemoryItem)
    (hkey : vgetD p "key" .null = kv) (ht : truthy kv = true)
    (hfind : c.store.find? (MemoryTool.keyIs kv) = some it0) :
    MemoryTool.set_memory c p =
      (.ok ({ it0 with
                value := vgetD p "value" (.null),
                metadata := vgetD p "metadata" (.obj []),
                updated_at := c.now } : MemoryTool.MemoryItem).to_dict,
       updateFirst (MemoryTool.keyIs kv)
         (fun it => { it with
                        value := vgetD p "value" (.null),
                        metadata := vgetD p "metadata" (.obj []),
                        updated_at := c.now }) c.store) := by
  simp [MemoryTool.set_memory, hkey, ht, hfind]

theorem set_memory_insert (c : MemoryTool.MemCtx) (p kv : Value)
    (hkey : vgetD p "key" .null = kv) (ht : truthy kv = true)
    (hfind : c.store.find? (MemoryTool.keyIs kv) = none) :
    MemoryTool.set_memory c p =
      (.ok (⟨MemoryTool.nextId c.store, kv, vgetD p "value" .null,
             vgetD p "metadata" (.obj []), c.now, c.now⟩ : MemoryTool.MemoryItem).to_dict,
       c.store ++ [⟨MemoryTool.nextId c.store, kv, vgetD p "value" .null,
                    vgetD p "metadata" (.obj []), c.now, c.now⟩]) := by
  simp [MemoryTool.set_memory, hkey, ht, hfind]

theorem get_memory_found (s : MemoryTool.Store) (k : String) (hk : k ≠ "")
    (it : MemoryTool.MemoryItem)
    (hfind : s.find? (MemoryTool.keyIs (.str k)) = some it) :
    MemoryTool.get_memory s (.obj [("key", .str k)]) = .ok it.to_dict := by
  have hv : vgetD (.obj [("key", Value.str k)]) "key" .null = .str k := rfl
  have ht : truthy (Value.str k) = true := by simp [truthy, hk]
  simp [MemoryTool.get_memory, hv, ht, hfind]

theorem get_memory_missing (s : MemoryTool.Store) (k : String) (hk : k ≠ "")
    (hfind : s.find? (MemoryTool.keyIs (.str k)) = none) :
    MemoryTool.get_memory s (.obj [("key", .str k)]) =
      .exn ⟨"ValueError", "Memory item with key \x27" ++ k ++ "\x27 not found"⟩ := by
  have hv : vgetD (.obj [("key", Value.str k)]) "key" .null = .str k := rfl
  have ht : truthy (Value.str k) = true := by simp [truthy, hk]
  simp [MemoryTool.get_memory, hv, ht, hfind, pyStr]

/-- C4: memory round trip — after `set(key=k, value=v)` at time `t1`, `get`
returns value `v` with timestamps; after a second `set(key=k, value=v2)` at
a later time `t2`, `get` returns `v2` with `updated_at = t2 ≥ t1 =` the
prior `updated_at` and with `created_at` unchanged from the first set. -/
theorem C4_memory_roundtrip (s : MemoryTool.Store) (k : String) (hk : k ≠ "")
    (v v2 : Value) (t1 t2 : Nat) (h12 : t1 ≤ t2) (f1 f2 : String)
    (s1 s2 : MemoryTool.Store)
    (hs1 : s1 = (MemoryTool.set_memory ⟨s, t1, f1⟩ (.obj [("key", .str k), ("value", v)])).2)
    (hs2 : s2 = (MemoryTool.set_memory ⟨s1, t2, f2⟩ (.obj [("key", .str k), ("value", v2)])).2) :
    resField (MemoryTool.get_memory s1 (.obj [("key", .str k)])) "value" = some v
    ∧ resField (MemoryTool.get_memory s1 (.obj [("key", .str k)])) "updated_at" = some (.num t1)
    ∧ resField (MemoryTool.get_memory s2 (.obj [("key", .str k)])) "value" = some v2
    ∧ resField (MemoryTool.get_memory s2 (.obj [("key", .str k)])) "updated_at" = some (.num t2)
    ∧ resField (MemoryTool.get_memory s2 (.obj [("key", .str k)])) "created_at"
        = resField (MemoryTool.get_memory s1 (.obj [("key", .str k)])) "created_at"
    ∧ (∃ c0 : Nat, resField (MemoryTool.get_memory s1 (.obj [("key", .str k)])) "created_at"
        = some (.num c0))
    ∧ t1 ≤ t2 := by
  have hkey1 : vgetD (.obj [("key", Value.str k), ("value", v)]) "key" .null = .str k := rfl
  have hval1 : vgetD (.obj [("key", Value.str k), ("value", v)]) "value" .null = v := rfl
  have hmet1 : vgetD (.obj [("key", Value.str k), ("value", v)]) "metadata" (.obj []) = .obj [] := rfl
  have hkey2 : vgetD (.obj [("key", Value.str k), ("value", v2)]) "key" .null = .str k := rfl
  have hval2 : vgetD (.obj [("key", Value.str k), ("value", v2)]) "value" .null = v2 := rfl
  have hmet2 : vgetD (.obj [("key", Value.str k), ("value", v2)]) "metadata" (.obj []) = .obj [] := rfl
  have ht : truthy (Value.str k) = true := by simp [truthy, hk]
  cases hf : s.find? (MemoryTool.keyIs (.str k)) with
  | none =>
      rw [set_memory_insert ⟨s, t1, f1⟩ _ (.str k) hkey1 ht hf] at hs1
      rw [hval1, hmet1] at hs1
      set item1 : MemoryTool.MemoryItem :=
        ⟨MemoryTool.nextId s, .str k, v, .obj [], t1, t1⟩ with hitem1
      have find1 : s1.find? (MemoryTool.keyIs (.str k)) = some item1 := by
        rw [hs1]
        exact find?_append_one _ s item1 hf (keyIs_str_self k _ v (.obj []) t1 t1)
      have g1 : MemoryTool.get_memory s1 (.obj [("key", .str k)]) = .ok item1.to_dict :=
        get_memory_found s1 k hk item1 find1
      rw [set_memory_update ⟨s1, t2, f2⟩ _ (.str k) item1 hkey2 ht find1] at hs2
      rw [hval2, hmet2] at hs2
      have find2 : s2.find? (MemoryTool.keyIs (.str k))
          = some { item1 with value := v2, metadata := .obj [], updated_at := t2 } := by
        rw [hs2]
        exact find?_updateFirst_pres (MemoryTool.keyIs (.str k))
          (fun it => { it with value := v2, metadata := Value.obj [], updated_at := t2 })
          (fun a h => h) s1 item1 find1
      have g2 : MemoryTool.get_memory s2 (.obj [("key", .str k)])
          = .ok ({ item1 with value := v2, metadata := .obj [], updated_at := t2 }
                  : MemoryTool.MemoryItem).to_dict :=
        get_memory_found s2 k hk _ find2
      refine ⟨?_, ?_, ?_, ?_, ?_, ⟨t1, ?_⟩, h12⟩ <;>
        simp [g1, g2, resField_to_dict_value, resField_to_dict_created, resField_to_dict_updated]
  | some it0 =>
      rw [set_memory_update ⟨s, t1, f1⟩ _ (.str k) it0 hkey1 ht hf] at hs1
      rw [hval1, hmet1] at hs1
      set item1 : MemoryTool.MemoryItem :=
        { it0 with value := v, metadata := .obj [], updated_at := t1 } with hitem1
      have find1 : s1.find? (MemoryTool.keyIs (.str k)) = some item1 := by
        rw [hs1]
        exact find?_updateFirst_pres (MemoryTool.keyIs (.str k))
          (fun it => { it with value := v, metadata := Value.obj [], updated_at := t1 })
          (fun a h => h) s it0 hf
      have g1 : MemoryTool.get_memory s1 (.obj [("key", .str k)]) = .ok item1.to_dict :=
        get_memory_found s1 k hk item1 find1
      rw [set_memory_update ⟨s1, t2, f2⟩ _ (.str k) item1 hkey2 ht find1] at hs2
      rw [hval2, hmet2] at hs2
      have find2 : s2.find? (MemoryTool.keyIs (.str k))
          = some { item1 with value := v2, metadata := .obj [], updated_at := t2 } := by
        rw [hs2]
        exact find?_updateFirst_pres (MemoryTool.keyIs (.str k))
          (fun it => { it with value := v2, metadata := Value.obj [], updated_at := t2 })
          (fun a h => h) s1 item1 find1
      have g2 : MemoryTool.get_memory s2 (.obj [("key", .str k)])
          = .ok ({ item1 with value := v2, metadata := .obj [], updated_at := t2 }
                  : MemoryTool.MemoryItem).to_dict :=
        get_memory_found s2 k hk _ find2
      refine ⟨?_, ?_, ?_, ?_, ?_, ⟨it0.created_at, ?_⟩, h12⟩ <;>
        simp [g1, g2, resField_to_dict_value, resField_to_dict_created, resField_to_dict_updated]

/-- C4 witness: the round trip at `k="k"`, `v="v"`, `v2="v2"` on the empty
store with clock readings 0 and 1. -/
theorem C4_memory_roundtrip_witness :
    resField (MemoryTool.get_memory
        ((MemoryTool.set_memory ⟨[], 0, "u"⟩ (.obj [("key", .str "k"), ("value", .str "v")])).2)
        (.obj [("key", .str "k")])) "value" = some (.str "v")
    ∧ resField (MemoryTool.get_memory
        ((MemoryTool.set_memory ⟨[], 0, "u"⟩ (.obj [("key", .str "k"), ("value", .str "v")])).2)
        (.obj [("key", .str "k")])) "updated_at" = some (.num 0)
    ∧ resField (MemoryTool.get_memory
        ((MemoryTool.set_memory ⟨(MemoryTool.set_memory ⟨[], 0, "u"⟩
            (.obj [("key", .str "k"), ("value", .str "v")])).2, 1, "u"⟩
            (.obj [("key", .str "k"), ("value", .str "v2")])).2)
        (.obj [("key", .str "k")])) "value" = some (.str "v2")
    ∧ resField (MemoryTool.get_memory
        ((MemoryTool.set_memory ⟨(MemoryTool.set_memory ⟨[], 0, "u"⟩
            (.obj [("key", .str "k"), ("value", .str "v")])).2, 1, "u"⟩
            (.obj [("key", .str "k"), ("value", .str "v2")])).2)
        (.obj [("key", .str "k")])) "updated_at" = some (.num 1)
    ∧ resField (MemoryTool.get_memory
        ((MemoryTool.set_memory ⟨(MemoryTool.set_memory ⟨[], 0, "u"⟩
            (.obj [("key", .str "k"), ("value", .str "v")])).2, 1, "u"⟩
            (.obj [("key", .str "k"), ("value", .str "v2")])).2)
        (.obj [("key", .str "k")])) "created_at"
      = resField (MemoryTool.get_memory
        ((MemoryTool.set_memory ⟨[], 0, "u"⟩ (.obj [("key", .str "k"), ("value", .str "v")])).2)
        (.obj [("key", .str "k")])) "created_at"
    ∧ (∃ c0 : Nat, resField (MemoryTool.get_memory
        ((MemoryTool.set_memory ⟨[], 0, "u"⟩ (.obj [("key", .str "k"), ("value", .str "v")])).2)
        (.obj [("key", .str "k")])) "created_at" = some (.num c0))
    ∧ (0 : Nat) ≤ 1 :=
  C4_memory_roundtrip [] "k" (by decide) (.str "v") (.str "v2") 0 1 (by decide) "u" "u"
    _ _ rfl rfl

/-- C5 counterexample: deleting an absent key fails with the Python
exception kind `ValueError` (message `... not found`), not with an error
kind `NotFound` — no `NotFound` kind exists in the code. -/
theorem C5_memory_delete_counterexample :
    MemoryTool.delete_memory [] (.obj [("key", .str "k")])
      = (.exn ⟨"ValueError", "Memory item with key \x27k\x27 not found"⟩, [])
    ∧ ("ValueError" : String) ≠ "NotFound" :=
  ⟨rfl, by decide⟩

/-- C5 (amended): `delete` on a present key succeeds and removes the item,
so a subsequent `get` fails with the `ValueError` whose message reports the
key as not found; `delete` on an absent key fails with that same
`ValueError` kind and leaves the store unchanged.  (The store is assumed to
satisfy the key-uniqueness constraint of the table.) -/
theorem C5_memory_delete_amended (s : MemoryTool.Store) (k : String) (hk : k ≠ "")
    (hu : s.countP (MemoryTool.keyIs (.str k)) ≤ 1) :
    (∀ it, s.find? (MemoryTool.keyIs (.str k)) = some it →
        MemoryTool.delete_memory s (.obj [("key", .str k)])
          = (.ok (.obj [("success", .bool true),
                        ("message", .str ("Memory item with key " ++ k ++ " deleted successfully"))]),
             removeFirst (MemoryTool.keyIs (.str k)) s)
        ∧ MemoryTool.get_memory (removeFirst (MemoryTool.keyIs (.str k)) s)
            (.obj [("key", .str k)])
          = .exn ⟨"ValueError", "Memory item with key \x27" ++ k ++ "\x27 not found"⟩)
    ∧ (s.find? (MemoryTool.keyIs (.str k)) = none →
        MemoryTool.delete_memory s (.obj [("key", .str k)])
          = (.exn ⟨"ValueError", "Memory item with key \x27" ++ k ++ "\x27 not found"⟩, s)) := by
  have hv : vgetD (.obj [("key", Value.str k)]) "key" .null = .str k := rfl
  have ht : truthy (Value.str k) = true := by simp [truthy, hk]
  constructor
  · intro it hf
    constructor
    · simp [MemoryTool.delete_memory, hv, ht, hf, pyStr]
    · exact get_memory_missing _ k hk (find?_removeFirst_of_count _ s hu)
  · intro hf
    simp [MemoryTool.delete_memory, hv, ht, hf, pyStr]

/-- C5 witness: deleting the present key `k` from a one-row store succeeds
and the following `get` fails; deleting from the empty store fails and
leaves it empty. -/
theorem C5_memory_delete_witness :
    (MemoryTool.delete_memory [⟨1, .str "k", .str "v", .obj [], 0, 0⟩]
        (.obj [("key", .str "k")])
      = (.ok (.obj [("success", .bool true),
                    ("message", .str "Memory item with key k deleted successfully")]),
         removeFirst (MemoryTool.keyIs (.str "k")) [⟨1, .str "k", .str "v", .obj [], 0, 0⟩])
     ∧ MemoryTool.get_memory
         (removeFirst (MemoryTool.keyIs (.str "k")) [⟨1, .str "k", .str "v", .obj [], 0, 0⟩])
         (.obj [("key", .str "k")])
       = .exn ⟨"ValueError", "Memory item with key \x27k\x27 not found"⟩)
    ∧ MemoryTool.delete_memory [] (.obj [("key", .str "k")])
      = (.exn ⟨"ValueError", "Memory item with key \x27k\x27 not found"⟩, []) :=
  ⟨(C5_memory_delete_amended [⟨1, .str "k", .str "v", .obj [], 0, 0⟩] "k"
      (by decide) (by decide)).1 ⟨1, .str "k", .str "v", .obj [], 0, 0⟩ rfl,
   (C5_memory_delete_amended [] "k" (by decide) (by decide)).2 rfl⟩

theorem set_memory_genkey (c : MemoryTool.MemCtx) (p : Value)
    (hkv : truthy (vgetD p "key" .null) = false)
    (hnew : c.store.find? (MemoryTool.keyIs (.str c.fresh)) = none) :
    MemoryTool.set_memory c p =
      (.ok (⟨MemoryTool.nextId c.store, .str c.fresh, vgetD p "value" (.null),
             vgetD p "metadata" (.obj []), c.now, c.now⟩ : MemoryTool.MemoryItem).to_dict,
       c.store ++ [⟨MemoryTool.nextId c.store, .str c.fresh, vgetD p "value" (.null),
                    vgetD p "metadata" (.obj []), c.now, c.now⟩]) := by
  simp [MemoryTool.set_memory, hkv, hnew]

/-- C9: a `set` whose key parameter is falsy or absent does not fail: the
fresh uuid (a nonempty string) becomes the key of a newly created row, and
the returned item carries that generated key.  (The uuid is assumed fresh:
no row with that key exists.) -/
theorem C9_memory_key_generation (s : MemoryTool.Store) (v kv : Value) (t : Nat)
    (fresh : String) (hf : fresh ≠ "") (hkv : truthy kv = false)
    (hnew : s.find? (MemoryTool.keyIs (.str fresh)) = none) :
    (MemoryTool.set_memory ⟨s, t, fresh⟩ (.obj [("key", kv), ("value", v)])).1
      = .ok (⟨MemoryTool.nextId s, .str fresh, v, .obj [], t, t⟩ : MemoryTool.MemoryItem).to_dict
    ∧ resField (MemoryTool.set_memory ⟨s, t, fresh⟩ (.obj [("key", kv), ("value", v)])).1 "key"
      = some (.str fresh)
    ∧ (MemoryTool.set_memory ⟨s, t, fresh⟩ (.obj [("key", kv), ("value", v)])).2
      = s ++ [⟨MemoryTool.nextId s, .str fresh, v, .obj [], t, t⟩]
    ∧ (MemoryTool.set_memory ⟨s, t, fresh⟩ (.obj [("value", v)])).1
      = .ok (⟨MemoryTool.nextId s, .str fresh, v, .obj [], t, t⟩ : MemoryTool.MemoryItem).to_dict
    ∧ (MemoryTool.set_memory ⟨s, t, fresh⟩ (.obj [("value", v)])).2
      = s ++ [⟨MemoryTool.nextId s, .str fresh, v, .obj [], t, t⟩]
    ∧ fresh ≠ "" := by
  have h1 : vgetD (.obj [("key", kv), ("value", v)]) "key" .null = kv := rfl
  have h2 : truthy (vgetD (.obj [("key", kv), ("value", v)]) "key" .null) = false := by
    rw [h1]; exact hkv
  have h3 : truthy (vgetD (.obj [("value", v)]) "key" .null) = false := rfl
  have e1 := set_memory_genkey ⟨s, t, fresh⟩ (.obj [("key", kv), ("value", v)]) h2 hnew
  have e2 := set_memory_genkey ⟨s, t, fresh⟩ (.obj [("value", v)]) h3 hnew
  refine ⟨?_, ?_, ?_, ?_, ?_, hf⟩
  · rw [e1]
    rfl
  · rw [e1]
    rfl
  · rw [e1]
    rfl
  · rw [e2]
    rfl
  · rw [e2]
    rfl

/-- C9 witness: a `set` with a null key on the empty store at uuid `u`. -/
theorem C9_memory_key_generation_witness :
    (MemoryTool.set_memory ⟨[], 0, "u"⟩ (.obj [("key", .null), ("value", .str "v")])).1
      = .ok (⟨MemoryTool.nextId [], .str "u", .str "v", .obj [], 0, 0⟩
              : MemoryTool.MemoryItem).to_dict
    ∧ resField (MemoryTool.set_memory ⟨[], 0, "u"⟩
        (.obj [("key", .null), ("value", .str "v")])).1 "key" = some (.str "u")
    ∧ (MemoryTool.set_memory ⟨[], 0, "u"⟩ (.obj [("key", .null), ("value", .str "v")])).2
      = [] ++ [⟨MemoryTool.nextId [], .str "u", .str "v", .obj [], 0, 0⟩]
    ∧ (MemoryTool.set_memory ⟨[], 0, "u"⟩ (.obj [("value", .str "v")])).1
      = .ok (⟨MemoryTool.nextId [], .str "u", .str "v", .obj [], 0, 0⟩
              : MemoryTool.MemoryItem).to_dict
    ∧ (MemoryTool.set_memory ⟨[], 0, "u"⟩ (.obj [("value", .str "v")])).2
      = [] ++ [⟨MemoryTool.nextId [], .str "u", .str "v", .obj [], 0, 0⟩]
    ∧ ("u" : String) ≠ "" :=
  C9_memory_key_generation [] (.str "v") .null 0 "u" (by decide) rfl rfl

/-- C10 counterexample: with `limit = -1` (a legal call), the SQLite
`LIMIT -1` disables the bound, so a one-row store yields one item — the
returned `items` array does not contain at most `limit` entries. -/
theorem C10_memory_list_counterexample :
    resField (MemoryTool.list_memory [sampleItem] (.obj [("limit", .num (-1))])) "items"
      = some (.arr [sampleItem.to_dict])
    ∧ resField (MemoryTool.list_memory [sampleItem] (.obj [("limit", .num (-1))])) "limit"
      = some (.num (-1))
    ∧ ¬(([sampleItem.to_dict].length : Int) ≤ -1) :=
  ⟨rfl, rfl, by decide⟩

/-- C10 (amended): for every `list` call with integer `limit ≥ 0` and
`offset ≥ 0`, the returned `items` are the matching rows after skipping
`offset` and taking at most `limit` (so their number is at most `limit`),
the returned `total` counts all rows matching the `filterKey` filter
independently of any integer `limit`/`offset` supplied, and the converted
`limit` and `offset` are echoed back; a negative `limit` instead disables
the bound (SQLite semantics). -/
theorem C10_memory_list_pagination (s : MemoryTool.Store) (fk : Value)
    (limit offset : Int) (hl : 0 ≤ limit) (ho : 0 ≤ offset) :
    MemoryTool.list_memory s
        (.obj [("filterKey", fk), ("limit", .num limit), ("offset", .num offset)])
      = .ok (.obj [("items", .arr (((MemoryTool.memFilter s fk).map
                      MemoryTool.MemoryItem.to_dict).drop offset.toNat |>.take limit.toNat)),
                   ("total", .num (MemoryTool.memFilter s fk).length),
                   ("limit", .num limit), ("offset", .num offset)])
    ∧ (((MemoryTool.memFilter s fk).map MemoryTool.MemoryItem.to_dict).drop offset.toNat
        |>.take limit.toNat).length ≤ limit.toNat
    ∧ (∀ limit2 offset2 : Int,
        resField (MemoryTool.list_memory s
            (.obj [("filterKey", fk), ("limit", .num limit2), ("offset", .num offset2)])) "total"
          = some (.num (MemoryTool.memFilter s fk).length)) := by
  have hfk : vgetD (.obj [("filterKey", fk), ("limit", Value.num limit),
      ("offset", Value.num offset)]) "filterKey" .null = fk := rfl
  have hnl : ¬(limit < 0) := not_lt.mpr hl
  refine ⟨?_, ?_, ?_⟩
  · simp [MemoryTool.list_memory, MemoryTool.pyInt, hfk, MemoryTool.sqlLimitOffset, hnl,
          vgetD, vget, List.find?]
  · exact List.length_take_le _ _
  · intro limit2 offset2
    simp [MemoryTool.list_memory, MemoryTool.pyInt, MemoryTool.sqlLimitOffset,
          resField, vgetD, vget, List.find?]

/-- C10 witness: the amended statement on a one-row store with `limit = 1`,
`offset = 0`, and `total` at a different `limit`/`offset`. -/
theorem C10_memory_list_pagination_witness :
    MemoryTool.list_memory [sampleItem]
        (.obj [("filterKey", .null), ("limit", .num 1), ("offset", .num 0)])
      = .ok (.obj [("items", .arr (((MemoryTool.memFilter [sampleItem] .null).map
                      MemoryTool.MemoryItem.to_dict).drop (0 : Int).toNat
                      |>.take (1 : Int).toNat)),
                   ("total", .num (MemoryTool.memFilter [sampleItem] .null).length),
                   ("limit", .num 1), ("offset", .num 0)])
    ∧ (((MemoryTool.memFilter [sampleItem] .null).map
          MemoryTool.MemoryItem.to_dict).drop (0 : Int).toNat
        |>.take (1 : Int).toNat).length ≤ (1 : Int).toNat
    ∧ resField (MemoryTool.list_memory [sampleItem]
          (.obj [("filterKey", .null), ("limit", .num 5), ("offset", .num 2)])) "total"
      = some (.num (MemoryTool.memFilter [sampleItem] .null).length) :=
  ⟨(C10_memory_list_pagination [sampleItem] .null 1 0 (by decide) (by decide)).1,
   (C10_memory_list_pagination [sampleItem] .null 1 0 (by decide) (by decide)).2.1,
   (C10_memory_list_pagination [sampleItem] .null 1 0 (by decide) (by decide)).2.2 5 2⟩
